import Mathlib

/-!
Shallow embedding of the `WebBridge` messaging bridge (`src/index.ts`).

The bridge turns a broadcast `postMessage` channel into a request/response
RPC channel with handshake-based readiness, per-call timeouts, an
identifier allow-list and pluggable handlers.  We model:

* payloads as an inductive `JVal` (JS values carried in `data` fields);
* wire envelopes as a single `RawMessage` record covering both the request
  and the response variants (absent JS fields are `none` / `false`);
* the bridge's mutable fields as an explicit `BridgeSt` record threaded
  through the dispatch functions, with timers represented by identifiers
  and `Date.now()` by an explicit `clock` field;
* observable effects (handler invocations, promise resolutions/rejections,
  timer cancellations) as a list of `BEvent`s returned alongside the state;
* the handshake retry loop `performHandshakeWithRetry` as a recursion over
  the list of per-attempt outcomes (success, or the error the attempt
  rejected with), returning the emitted trace, the final attempt counter
  and the resulting status.

`generateId` in the source combines `Date.now()` with randomness solely to
produce fresh identifiers; we model it by a fresh counter in the state.
-/

namespace WebBridge

/-- JS values carried in `data` fields of envelopes. -/
inductive JVal where
  | vNull
  | vBool (b : Bool)
  | vInt (n : Int)
  | vStr (s : String)
  | vObj (fields : List (String × JVal))

/-- `DEFAULT_MESSAGE_TYPE` from the source. -/
def DEFAULT_MESSAGE_TYPE : String := "web-bridge"

/-- `HANDSHAKE_ACTION` from the source. -/
def HANDSHAKE_ACTION : String := "__handshake__"

/-- One wire envelope.  Covers both `RequestMessage` and `ResponseMessage`
from the source: request envelopes have a present `action` and no
`requestId`; response envelopes have a present `requestId` and no `action`.
An absent optional JS field is `none` (for `needResponse` and `success`,
absent is `false`, which is how the source's truthiness tests read them). -/
structure RawMessage where
  type : String
  communicationId : String
  id : String
  timestamp : Int
  action : Option String
  data : Option JVal
  needResponse : Bool
  requestId : Option String
  success : Bool
  error : Option String

/-- A value delivered by the transport: either not a structured object
(`null`, a primitive, ...) or an object read as a `RawMessage`. -/
inductive InVal where
  | nonObject
  | obj (m : RawMessage)

/-- JS truthiness of an optional string field: absent and `""` are falsy. -/
def truthy : Option String → Bool
  | none => false
  | some s => !(s == "")

/-- JS `x || dflt` for an optional string: absent and `""` fall back. -/
def jsOrElse (x : Option String) (dflt : String) : String :=
  match x with
  | none => dflt
  | some s => if s == "" then dflt else s

/-- `Map.get` semantics on an association list (insertion order). -/
def mapGet (k : String) (l : List (String × α)) : Option α :=
  match l with
  | [] => none
  | (k', v) :: rest => if k' == k then some v else mapGet k rest

/-- `Map.set` semantics: replace in place, or append a new entry. -/
def mapSet (k : String) (v : α) : List (String × α) → List (String × α)
  | [] => [(k, v)]
  | (k', v') :: rest =>
    if k' == k then (k, v) :: rest else (k', v') :: mapSet k v rest

/-- `Map.delete` semantics (keys are unique, so filtering is removal). -/
def mapDelete (k : String) (l : List (String × α)) : List (String × α) :=
  l.filter (fun p => !(p.1 == k))

/-- A registered handler: receives the current clock (`Date.now()` is in
scope when it runs) and the envelope's `data`; returns a value or throws.
`await` is applied uniformly by the dispatcher, so a handler is just its
eventual outcome. -/
def Handler : Type := Int → Option JVal → Except String (Option JVal)

/-- The bridge's mutable fields (`WebBridge`'s private state), plus a fresh
counter for `generateId`, a timer-identifier supply, and a clock. -/
structure BridgeSt where
  communicationId : String
  messageType : String
  allowedIds : List String
  messageHandlers : List (String × Handler)
  pendingRequests : List (String × Nat)
  activeTimers : List Nat
  isReady : Bool
  retryTimerActive : Bool
  listenerAttached : Bool
  handshakeAttempts : Nat
  nextId : Nat
  nextTimerId : Nat
  clock : Int

/-- Observable effects of a dispatch step. -/
inductive BEvent where
  | handlerCalled (action : String) (data : Option JVal)
  | logError (action : String) (msg : String)
  | cancelTimer (tid : Nat)
  | resolvedPending (requestId : String) (data : Option JVal)
  | rejectedPending (requestId : String) (errMsg : String)

/-- `isAllowedId`: empty allow-list accepts everyone; otherwise membership. -/
def isAllowedId (allowedIds : List String) (communicationId : String) : Bool :=
  allowedIds.length == 0 || allowedIds.contains communicationId

/-- `generateId`, modelled by the fresh counter. -/
def generateId (s : BridgeSt) : String × BridgeSt :=
  ("gen-" ++ Nat.repr s.nextId, { s with nextId := s.nextId + 1 })

/-- The error text of the missing-handler failure response. -/
def missingHandlerError (action : String) : String :=
  "未找到处理器: " ++ action

/-- `sendResponse`: builds the response envelope that is posted. -/
def sendResponse (s : BridgeSt) (respId : String) (requestId : String)
    (success : Bool) (data : Option JVal) (error : Option String) : RawMessage :=
  { type := s.messageType
    communicationId := s.communicationId
    id := respId
    timestamp := s.clock
    action := none
    data := data
    needResponse := false
    requestId := some requestId
    success := success
    error := error }

/-- `handleRequestMessage`: look up the handler; if none, answer with a
missing-handler failure when a response was requested; otherwise invoke the
handler, and when a response was requested send its result (success) or its
error message (failure, also logged). -/
def handleRequestMessage (s : BridgeSt) (m : RawMessage) :
    BridgeSt × List RawMessage × List BEvent :=
  let action := m.action.getD ""
  match mapGet action s.messageHandlers with
  | none =>
    if m.needResponse then
      let (rid, s1) := generateId s
      (s1, [sendResponse s1 rid m.id false none (some (missingHandlerError action))], [])
    else
      (s, [], [])
  | some h =>
    match h s.clock m.data with
    | .ok v =>
      if m.needResponse then
        let (rid, s1) := generateId s
        (s1, [sendResponse s1 rid m.id true v none], [.handlerCalled action m.data])
      else
        (s, [], [.handlerCalled action m.data])
    | .error e =>
      if m.needResponse then
        let (rid, s1) := generateId s
        (s1, [sendResponse s1 rid m.id false none (some e)],
          [.handlerCalled action m.data, .logError action e])
      else
        (s, [], [.handlerCalled action m.data, .logError action e])

/-- `handleResponseMessage`: look up the pending entry by `requestId`; if
absent, silently drop; otherwise cancel its timer, remove it, and fire
exactly one callback (resolve with `data`, or reject with
`Error(error || "未知错误")`). -/
def handleResponseMessage (s : BridgeSt) (m : RawMessage) :
    BridgeSt × List BEvent :=
  let rid := m.requestId.getD ""
  match mapGet rid s.pendingRequests with
  | none => (s, [])
  | some tid =>
    let s1 := { s with
      activeTimers := s.activeTimers.erase tid
      pendingRequests := mapDelete rid s.pendingRequests }
    if m.success then
      (s1, [.cancelTimer tid, .resolvedPending rid m.data])
    else
      (s1, [.cancelTimer tid, .rejectedPending rid (jsOrElse m.error "未知错误")])

/-- `handleMessage`: drop non-objects and mismatched `type`; drop senders
not on the allow-list; then run the request check and the response check
independently (an envelope with both fields truthy goes through both). -/
def handleMessage (s : BridgeSt) (v : InVal) :
    BridgeSt × List RawMessage × List BEvent :=
  match v with
  | .nonObject => (s, [], [])
  | .obj m =>
    if !(m.type == s.messageType) then (s, [], [])
    else if !(isAllowedId s.allowedIds m.communicationId) then (s, [], [])
    else
      let (s1, sent1, ev1) :=
        if truthy m.action then handleRequestMessage s m else (s, [], [])
      let (s2, ev2) :=
        if truthy m.requestId then handleResponseMessage s1 m else (s1, [])
      (s2, sent1, ev1 ++ ev2)

/-- `handle`: register (or silently replace) the handler for an action.
The returned deregistration capability is `handleOff`. -/
def handle (s : BridgeSt) (action : String) (h : Handler) : BridgeSt :=
  { s with messageHandlers := mapSet action h s.messageHandlers }

/-- The deregistration closure returned by `handle`. -/
def handleOff (s : BridgeSt) (action : String) : BridgeSt :=
  { s with messageHandlers := mapDelete action s.messageHandlers }

/-- The pre-registered handshake responder (`setupHandshakeHandler`):
answers any handshake request with `{ success: true, timestamp: Date.now() }`. -/
def handshakeResponder : Handler :=
  fun clock _ => .ok (some (.vObj [("success", .vBool true), ("timestamp", .vInt clock)]))

/-- `setupHandshakeHandler`: registers `handshakeResponder` under
`HANDSHAKE_ACTION`. -/
def setupHandshakeHandler (s : BridgeSt) : BridgeSt :=
  handle s HANDSHAKE_ACTION handshakeResponder

/-- The constructor: records the identifier, message type and allow-list,
attaches the transport listener and pre-registers the handshake handler. -/
def initBridge (communicationId : String) (allowedIds : List String)
    (messageType : String) : BridgeSt :=
  setupHandshakeHandler
    { communicationId := communicationId
      messageType := messageType
      allowedIds := allowedIds
      messageHandlers := []
      pendingRequests := []
      activeTimers := []
      isReady := false
      retryTimerActive := false
      listenerAttached := true
      handshakeAttempts := 0
      nextId := 0
      nextTimerId := 0
      clock := 0 }

/-- `invokeRequest`: generate a fresh id, start the per-call timer with
`requestTimeout`, register the pending entry, and post the request envelope
(with `needResponse := true`).  Returns the new state, the request id and
the posted envelope. -/
def invokeRequest (s : BridgeSt) (action : String) (data : Option JVal) :
    BridgeSt × String × RawMessage :=
  let (id, s1) := generateId s
  let tid := s1.nextTimerId
  let s2 := { s1 with
    nextTimerId := tid + 1
    activeTimers := s1.activeTimers ++ [tid]
    pendingRequests := mapSet id tid s1.pendingRequests }
  (s2, id,
    { type := s.messageType
      communicationId := s.communicationId
      id := id
      timestamp := s.clock
      action := some action
      data := data
      needResponse := true
      requestId := none
      success := false
      error := none })

/-- `sendSingleHandshakeRequest`: one correlated probe under the reserved
handshake action, with its own pending entry and the per-attempt
`handshakeTimeout` timer. -/
def sendSingleHandshakeRequest (s : BridgeSt) :
    BridgeSt × String × RawMessage :=
  let (id, s1) := generateId s
  let tid := s1.nextTimerId
  let s2 := { s1 with
    nextTimerId := tid + 1
    activeTimers := s1.activeTimers ++ [tid]
    pendingRequests := mapSet id tid s1.pendingRequests }
  (s2, id,
    { type := s.messageType
      communicationId := s.communicationId
      id := id
      timestamp := s.clock
      action := some HANDSHAKE_ACTION
      data := some (.vObj [("timestamp", .vInt s.clock)])
      needResponse := true
      requestId := none
      success := false
      error := none })

/-- `clearPendingRequests`: cancel every pending request's timer and reject
it with the disconnect error, then empty the table. -/
def clearPendingRequests (s : BridgeSt) : BridgeSt × List BEvent :=
  ({ s with
      pendingRequests := []
      activeTimers :=
        s.activeTimers.filter (fun t => !(s.pendingRequests.any (fun p => p.2 == t))) },
    (s.pendingRequests.map
      (fun p => [BEvent.cancelTimer p.2, BEvent.rejectedPending p.1 "连接已断开"])).flatten)

/-- `destroy`: stop the handshake retry timer, clear every handler, fail
all pending requests, and detach the transport listener. -/
def destroy (s : BridgeSt) : BridgeSt × List BEvent :=
  let s1 := { s with retryTimerActive := false }
  let s2 := { s1 with messageHandlers := [] }
  let (s3, evs) := clearPendingRequests s2
  ({ s3 with listenerAttached := false }, evs)

/-!  ### The handshake retry loop

`performHandshakeWithRetry` loops `attemptHandshake`: each iteration awaits
one `sendSingleHandshakeRequest`.  We model one iteration's outcome as an
`Except String Unit` — `.ok ()` when the probe's response arrived within
`handshakeTimeout`, `.error e` when it rejected (`e` the error's text) —
and the loop as a recursion over the list of outcomes the environment
produces.  The trace records what the loop does; an exhausted outcome list
means the sequence is still in flight. -/

/-- The configuration record `options` with the source's defaults. -/
structure Options where
  requestTimeout : Nat
  handshakeTimeout : Nat
  handshakeRetryInterval : Nat
  maxHandshakeAttempts : Nat

/-- The source's default configuration. -/
def defaultOptions : Options :=
  { requestTimeout := 30000
    handshakeTimeout := 500
    handshakeRetryInterval := 1000
    maxHandshakeAttempts := 10 }

/-- Status of a handshake sequence. -/
inductive HsStatus where
  | ready
  | failed (wrapped : String)
  | inFlight
deriving DecidableEq

/-- Events of the handshake retry loop.  `probe` is one
`sendSingleHandshakeRequest` (carrying its per-attempt timeout),
`stopRetry` a `stopHandshakeRetry()` call, `scheduleRetry` the
`setTimeout(attemptHandshake, handshakeRetryInterval)`. -/
inductive HsEvent where
  | probe (timeoutMs : Nat)
  | scheduleRetry (delayMs : Nat)
  | stopRetry
  | becomeReady
  | rejectSeq (msg : String)
deriving DecidableEq

/-- The wrapped handshake-failure error (`建联失败: ${error}`). -/
def wrapHandshakeError (e : String) : String :=
  "建联失败: " ++ e

/-- `performHandshakeWithRetry`, as a recursion over attempt outcomes:
success makes the bridge ready and stops the retry timer; failure bumps the
counter, and either rejects with the wrapped last error once the counter
has reached `maxHandshakeAttempts`, or schedules the next attempt after
`handshakeRetryInterval`.  Returns (trace, final attempt counter, status). -/
def performHandshakeWithRetry (opts : Options) :
    Nat → List (Except String Unit) → List HsEvent × Nat × HsStatus
  | attempts, [] => ([], attempts, .inFlight)
  | attempts, .ok _ :: _ =>
    ([.probe opts.handshakeTimeout, .stopRetry, .becomeReady], attempts, .ready)
  | attempts, .error e :: rest =>
    let a := attempts + 1
    if opts.maxHandshakeAttempts ≤ a then
      ([.probe opts.handshakeTimeout, .stopRetry, .rejectSeq (wrapHandshakeError e)],
        a, .failed (wrapHandshakeError e))
    else
      let r := performHandshakeWithRetry opts a rest
      (.probe opts.handshakeTimeout :: .scheduleRetry opts.handshakeRetryInterval :: r.1,
        r.2.1, r.2.2)

/-- `ensureReady`, sequential view: already ready returns at once;
otherwise the handshake sequence runs with the current attempt counter
(promise-sharing between concurrent callers is modelled by `readyStep`). -/
def ensureReady (opts : Options) (isReady : Bool) (attempts : Nat)
    (outs : List (Except String Unit)) : List HsEvent × Nat × HsStatus :=
  if isReady then ([], attempts, .ready)
  else performHandshakeWithRetry opts attempts outs

/-!  ### Promise sharing between concurrent callers

`ensureReady` stores the in-flight sequence's promise in `readyPromise`;
a second caller finding it set awaits it instead of starting another
sequence.  We model the readiness-related fields and count started
sequences. -/

/-- Readiness-related state for the promise-sharing model
(`isReady`, whether `readyPromise` is set, how many sequences were ever
started, how many callers await the current one). -/
structure ReadySt where
  isReady : Bool
  inFlight : Bool
  started : Nat
  waiters : Nat
deriving DecidableEq

/-- Initial readiness state of a fresh bridge. -/
def readyInit : ReadySt :=
  { isReady := false, inFlight := false, started := 0, waiters := 0 }

/-- Operations touching readiness: an `invoke` entering `ensureReady`, or
the in-flight sequence completing (successfully or not). -/
inductive ROp where
  | call
  | seqDone (success : Bool)

/-- One step of the readiness protocol, following `ensureReady`'s checks:
ready returns at once; an in-flight promise is awaited; otherwise a new
sequence starts.  Completion releases all waiters and clears the promise. -/
def readyStep (s : ReadySt) : ROp → ReadySt
  | .call =>
    if s.isReady then s
    else if s.inFlight then { s with waiters := s.waiters + 1 }
    else { s with inFlight := true, started := s.started + 1, waiters := s.waiters + 1 }
  | .seqDone ok =>
    if s.inFlight then
      { s with inFlight := false, waiters := 0, isReady := s.isReady || ok }
    else s

/-- Run a list of readiness operations. -/
def readyRun (s : ReadySt) (ops : List ROp) : ReadySt :=
  ops.foldl readyStep s

/-!  ### The round trip of one `invoke`

Peer A's `invokeRequest` posts a request envelope; the broadcast delivers
it to peer B, whose dispatcher may post response envelopes; the broadcast
delivers those back to A, whose dispatcher resolves the pending entry. -/

/-- Feed a list of inbound values through one bridge's dispatcher,
accumulating the events. -/
def dispatchAll (s : BridgeSt) (vs : List InVal) : BridgeSt × List BEvent :=
  vs.foldl
    (fun acc v =>
      let r := handleMessage acc.1 v
      (r.1, acc.2 ++ r.2.2))
    (s, [])

/-- The full round trip of one `invoke(action, data)` from A to B (after
readiness): A posts the request, B dispatches it, A dispatches every
response B posted.  Returns the request id, A's events, and B's events. -/
def roundTrip (a b : BridgeSt) (action : String) (data : Option JVal) :
    String × List BEvent × List BEvent :=
  let (a1, reqId, reqEnv) := invokeRequest a action data
  let (_, sent, bEvents) := handleMessage b (.obj reqEnv)
  let (_, aEvents) := dispatchAll a1 (sent.map .obj)
  (reqId, aEvents, bEvents)

/-- The resolutions among a list of events. -/
def resolutions (evs : List BEvent) : List (String × Option JVal) :=
  evs.filterMap (fun e =>
    match e with
    | .resolvedPending rid d => some (rid, d)
    | _ => none)

/-- The rejections among a list of events. -/
def rejections (evs : List BEvent) : List (String × String) :=
  evs.filterMap (fun e =>
    match e with
    | .rejectedPending rid msg => some (rid, msg)
    | _ => none)

/-- The handler invocations among a list of events. -/
def handlerCalls (evs : List BEvent) : List (String × Option JVal) :=
  evs.filterMap (fun e =>
    match e with
    | .handlerCalled a d => some (a, d)
    | _ => none)

/-- Number of probes (handshake requests posted) in a handshake trace. -/
def countProbe (evs : List HsEvent) : Nat :=
  evs.countP (fun e => match e with | .probe _ => true | _ => false)

/-- Number of retry schedulings in a handshake trace. -/
def countSched (evs : List HsEvent) : Nat :=
  evs.countP (fun e => match e with | .scheduleRetry _ => true | _ => false)

/-- Number of sequence rejections in a handshake trace. -/
def countReject (evs : List HsEvent) : Nat :=
  evs.countP (fun e => match e with | .rejectSeq _ => true | _ => false)

/-!  ## Helper lemmas about the association-list map operations -/

theorem mapGet_mapSet_self (k : String) (v : α) (l : List (String × α)) :
    mapGet k (mapSet k v l) = some v := by
  induction l with
  | nil => simp [mapGet, mapSet]
  | cons p rest ih =>
    by_cases h : p.1 == k
    · cases p; simp_all [mapGet, mapSet]
    · cases p; simp_all [mapGet, mapSet]

theorem mapGet_mapDelete_self (k : String) (l : List (String × α)) :
    mapGet k (mapDelete k l) = none := by
  induction l with
  | nil => simp [mapGet, mapDelete]
  | cons p rest ih =>
    by_cases h : p.1 == k
    · simpa [mapDelete, h] using ih
    · simpa [mapDelete, mapGet, h] using ih

theorem mapSet_keys_mem (k k' : String) (v : α) (l : List (String × α))
    (hmem : k' ∈ (mapSet k v l).map Prod.fst) :
    k' ∈ l.map Prod.fst ∨ k' = k := by
  induction l with
  | nil => simpa [mapSet] using hmem
  | cons q qs ihq =>
    by_cases hq : q.1 == k
    · cases q
      simp only [mapSet, hq, if_pos, List.map_cons, List.mem_cons] at hmem ⊢
      rcases hmem with h1 | h1
      · right; exact h1
      · left; right; exact h1
    · cases q
      simp only [mapSet, hq, Bool.false_eq_true, if_neg, not_false_iff,
        List.map_cons, List.mem_cons] at hmem ⊢
      rcases hmem with h1 | h1
      · left; left; exact h1
      · rcases ihq h1 with h2 | h2
        · left; right; exact h2
        · right; exact h2

theorem mapSet_keys_nodup (k : String) (v : α) (l : List (String × α))
    (h : (l.map Prod.fst).Nodup) : ((mapSet k v l).map Prod.fst).Nodup := by
  induction l with
  | nil => simp [mapSet]
  | cons p rest ih =>
    by_cases hk : p.1 == k
    · cases p with
      | mk k' v' =>
        simp only [mapSet, hk, if_pos]
        simp only [List.map_cons, List.nodup_cons] at h ⊢
        have hkk : k' = k := by simpa using hk
        exact ⟨by simpa [hkk] using h.1, h.2⟩
    · cases p with
      | mk k' v' =>
        simp only [mapSet, hk, Bool.false_eq_true, if_neg, not_false_iff]
        simp only [List.map_cons, List.nodup_cons] at h ⊢
        refine ⟨?_, ih h.2⟩
        intro hmem
        rcases mapSet_keys_mem k k' v rest hmem with h1 | h1
        · exact h.1 h1
        · exact hk (by simpa using h1)

theorem mapDelete_keys_nodup (k : String) (l : List (String × α))
    (h : (l.map Prod.fst).Nodup) : ((mapDelete k l).map Prod.fst).Nodup := by
  have hsub : (mapDelete k l).Sublist l := List.filter_sublist l
  exact (hsub.map Prod.fst).nodup h

theorem generateId_ne_empty (x : String) : ("gen-" ++ x) ≠ "" := by
  intro h
  have := congrArg String.length h
  simp [String.length_append] at this
  exact absurd this.1 (by decide)

theorem truthy_generateId (x : String) : truthy (some ("gen-" ++ x)) = true := by
  simp only [truthy, Bool.not_eq_eq_eq_not, Bool.not_true, beq_eq_false_iff_ne, ne_eq]
  exact generateId_ne_empty x

theorem beq_generateId_empty (x : String) : (("gen-" ++ x) == "") = false := by
  rw [beq_eq_false_iff_ne]
  exact generateId_ne_empty x

theorem missingHandlerError_ne_empty (x : String) :
    (missingHandlerError x == "") = false := by
  rw [beq_eq_false_iff_ne]
  intro h
  have := congrArg String.length h
  simp [missingHandlerError, String.length_append] at this
  exact absurd this.1 (by decide)

/-!  ## Claim theorems -/

/-- C1 (counterexample): the round-trip identity fails for the action name
`""`: peer B has a handler registered under `""` (the registry holds it),
yet A's request envelope carries `action: ""`, which B's dispatcher's JS
truthiness test `if (message.action)` treats as absent — B never invokes
the handler and never responds, so A's `invoke` does not resolve with the
handler's value (it would time out). -/
theorem roundTrip_empty_action_counterexample :
    (mapGet ""
        (handle (initBridge "b" [] DEFAULT_MESSAGE_TYPE) ""
          (fun _ _ => .ok (some (.vInt 7)))).messageHandlers).isSome = true ∧
    handlerCalls
        (roundTrip (initBridge "a" [] DEFAULT_MESSAGE_TYPE)
          (handle (initBridge "b" [] DEFAULT_MESSAGE_TYPE) ""
            (fun _ _ => .ok (some (.vInt 7)))) "" (some (.vInt 1))).2.2 = [] ∧
    resolutions
        (roundTrip (initBridge "a" [] DEFAULT_MESSAGE_TYPE)
          (handle (initBridge "b" [] DEFAULT_MESSAGE_TYPE) ""
            (fun _ _ => .ok (some (.vInt 7)))) "" (some (.vInt 1))).2.1 = [] := by
  refine ⟨rfl, rfl, rfl⟩

/-- C1 (amended: for every action name other than the empty string, which
the dispatcher's truthiness test drops): with a handler for the action
registered on peer B, the request envelope carries `data` to the handler,
the success response carries the handler's (awaited) return value, and
peer A's pending entry for the generated request id resolves with exactly
that value — round-trip identity of the payload. -/
theorem invoke_roundTrip_identity (a b : BridgeSt) (action : String)
    (data : Option JVal) (h : Handler) (v : Option JVal)
    (hact : action ≠ "")
    (hmt : b.messageType = a.messageType)
    (hab : isAllowedId b.allowedIds a.communicationId = true)
    (hba : isAllowedId a.allowedIds b.communicationId = true)
    (hh : mapGet action b.messageHandlers = some h)
    (hv : h b.clock data = .ok v) :
    (roundTrip a b action data).1 = "gen-" ++ Nat.repr a.nextId ∧
    resolutions (roundTrip a b action data).2.1
      = [("gen-" ++ Nat.repr a.nextId, v)] ∧
    rejections (roundTrip a b action data).2.1 = [] ∧
    handlerCalls (roundTrip a b action data).2.2 = [(action, data)] := by
  have hbeq : (action == "") = false := by
    rw [beq_eq_false_iff_ne]; exact hact
  simp only [roundTrip, invokeRequest, generateId, handleMessage, handleRequestMessage,
    handleResponseMessage, sendResponse, dispatchAll, truthy, hmt, hab, hba, hh, hv, hbeq,
    beq_self_eq_true, Bool.not_true, Bool.not_false, Bool.false_eq_true, if_neg, if_pos,
    not_false_iff, if_true, if_false,
    Option.getD_some, List.foldl_cons, List.foldl_nil, List.map_cons, List.map_nil,
    beq_generateId_empty, mapGet_mapSet_self,
    resolutions, rejections, handlerCalls, List.filterMap]
  exact ⟨trivial, trivial, trivial, trivial⟩

/-- C1 witness: the echo scenario — B handles `"echo"` with the identity,
A invokes it with payload `7`, and A's pending entry resolves with `7`. -/
theorem invoke_roundTrip_identity_witness :
    ("echo" ≠ "" ∧
      mapGet "echo"
        (handle (initBridge "b" [] DEFAULT_MESSAGE_TYPE) "echo"
          (fun _ d => .ok d)).messageHandlers
        = some (fun _ d => .ok d)) ∧
    resolutions
        (roundTrip (initBridge "a" [] DEFAULT_MESSAGE_TYPE)
          (handle (initBridge "b" [] DEFAULT_MESSAGE_TYPE) "echo"
            (fun _ d => .ok d)) "echo" (some (.vInt 7))).2.1
      = [("gen-0", some (.vInt 7))] := by
  refine ⟨⟨by decide, rfl⟩, ?_⟩
  have h := invoke_roundTrip_identity
    (initBridge "a" [] DEFAULT_MESSAGE_TYPE)
    (handle (initBridge "b" [] DEFAULT_MESSAGE_TYPE) "echo" (fun _ d => .ok d))
    "echo" (some (.vInt 7)) (fun _ d => .ok d) (some (.vInt 7))
    (by decide) rfl rfl rfl rfl rfl
  simpa using h.2.1

/-- C5: an inbound request whose action has no registered handler: when
`needResponse` is set, exactly one failure response is sent back, whose
error text names the missing action (a suffix of the text), so the remote
`invoke` rejects with that text; when `needResponse` is not set the request
is silently dropped with no response at all.  In both cases no handler
runs. -/
theorem missing_handler_failure (s : BridgeSt) (m : RawMessage)
    (hno : mapGet (m.action.getD "") s.messageHandlers = none) :
    (m.needResponse = true →
      (handleRequestMessage s m).2.1
        = [sendResponse { s with nextId := s.nextId + 1 }
            ("gen-" ++ Nat.repr s.nextId) m.id false none
            (some (missingHandlerError (m.action.getD "")))] ∧
      (sendResponse { s with nextId := s.nextId + 1 }
            ("gen-" ++ Nat.repr s.nextId) m.id false none
            (some (missingHandlerError (m.action.getD "")))).success = false ∧
      (handleRequestMessage s m).2.2 = []) ∧
    (m.needResponse = false → handleRequestMessage s m = (s, [], [])) ∧
    (∃ p, missingHandlerError (m.action.getD "") = p ++ m.action.getD "") ∧
    (∀ a action data, action ≠ "" →
      s.messageType = a.messageType →
      isAllowedId s.allowedIds a.communicationId = true →
      isAllowedId a.allowedIds s.communicationId = true →
      mapGet action s.messageHandlers = none →
      rejections (roundTrip a s action data).2.1
        = [("gen-" ++ Nat.repr a.nextId, missingHandlerError action)] ∧
      resolutions (roundTrip a s action data).2.1 = [] ∧
      handlerCalls (roundTrip a s action data).2.2 = []) := by
  refine ⟨?_, ?_, ⟨"未找到处理器: ", rfl⟩, ?_⟩
  · intro hr
    simp [handleRequestMessage, hno, hr, generateId, sendResponse]
  · intro hr
    simp [handleRequestMessage, hno, hr]
  · intro a action data hact hmt hab hba hno'
    have hbeq : (action == "") = false := by
      rw [beq_eq_false_iff_ne]; exact hact
    simp only [roundTrip, invokeRequest, generateId, handleMessage,
      handleRequestMessage, handleResponseMessage, sendResponse, dispatchAll,
      truthy, jsOrElse, hmt, hab, hba, hno', hbeq,
      beq_self_eq_true, Bool.not_true, Bool.not_false, Bool.false_eq_true,
      if_neg, if_pos, not_false_iff, if_true, if_false,
      Option.getD_some, List.foldl_cons, List.foldl_nil, List.map_cons,
      List.map_nil, beq_generateId_empty, mapGet_mapSet_self,
      missingHandlerError_ne_empty,
      resolutions, rejections, handlerCalls, List.filterMap]
    exact ⟨trivial, trivial, trivial⟩

/-- C5 witness: invoking the unhandled action `"ping"` yields exactly one
failure response and the pending entry rejects with the text naming it. -/
theorem missing_handler_failure_witness :
    (mapGet "ping" (initBridge "b" [] DEFAULT_MESSAGE_TYPE).messageHandlers
        = none ∧ "ping" ≠ "") ∧
    rejections
        (roundTrip (initBridge "a" [] DEFAULT_MESSAGE_TYPE)
          (initBridge "b" [] DEFAULT_MESSAGE_TYPE) "ping" none).2.1
      = [("gen-0", "未找到处理器: ping")] := by
  refine ⟨⟨rfl, by decide⟩, ?_⟩
  have h := (missing_handler_failure (initBridge "b" [] DEFAULT_MESSAGE_TYPE)
    (RawMessage.mk DEFAULT_MESSAGE_TYPE "a" "x" 0 (some "ping") none true none
      false none) rfl).2.2.2
    (initBridge "a" [] DEFAULT_MESSAGE_TYPE) "ping" none
    (by decide) rfl rfl rfl rfl
  simpa [missingHandlerError] using h.1

/-- C4: an inbound response whose `requestId` has no pending entry is
silently dropped (no events, no state change); with a pending entry, the
timer is cancelled and the entry removed from the table, exactly one
callback fires (success with `data` when `success` is true, otherwise
failure with `error` or the fixed unknown-error text), a second delivery of
the same response fires nothing, and the at-most-one-entry-per-identifier
invariant (keys without duplicates) is preserved by both resolution and
registration. -/
theorem response_resolution_correct (s : BridgeSt) (m : RawMessage) :
    (mapGet (m.requestId.getD "") s.pendingRequests = none →
      handleResponseMessage s m = (s, [])) ∧
    (∀ tid, mapGet (m.requestId.getD "") s.pendingRequests = some tid →
      (handleResponseMessage s m).1.pendingRequests
          = mapDelete (m.requestId.getD "") s.pendingRequests ∧
      mapGet (m.requestId.getD "") (handleResponseMessage s m).1.pendingRequests = none ∧
      (handleResponseMessage s m).2
          = [.cancelTimer tid,
             if m.success then .resolvedPending (m.requestId.getD "") m.data
             else .rejectedPending (m.requestId.getD "") (jsOrElse m.error "未知错误")] ∧
      (handleResponseMessage (handleResponseMessage s m).1 m).2 = [] ∧
      ((s.pendingRequests.map Prod.fst).Nodup →
        ((handleResponseMessage s m).1.pendingRequests.map Prod.fst).Nodup)) ∧
    (∀ action data, (s.pendingRequests.map Prod.fst).Nodup →
      ((invokeRequest s action data).1.pendingRequests.map Prod.fst).Nodup) := by
  refine ⟨?_, ?_, ?_⟩
  · intro h
    simp [handleResponseMessage, h]
  · intro tid h
    cases hs : m.success <;>
      simp [handleResponseMessage, h, hs, mapGet_mapDelete_self] <;>
      exact mapDelete_keys_nodup _ _
  · intro action data h
    simpa [invokeRequest, generateId] using
      mapSet_keys_nodup _ _ _ h

/-- C4 witness: concrete instantiation with one pending entry. -/
theorem response_resolution_correct_witness :
    (mapGet "r1"
        (BridgeSt.mk "a" DEFAULT_MESSAGE_TYPE [] [] [("r1", 5)] [5] false false
          true 0 0 1 0).pendingRequests = some 5) ∧
    (handleResponseMessage
        (BridgeSt.mk "a" DEFAULT_MESSAGE_TYPE [] [] [("r1", 5)] [5] false false
          true 0 0 1 0)
        (RawMessage.mk DEFAULT_MESSAGE_TYPE "b" "x" 0 none (some (.vInt 3))
          false (some "r1") true none)).2
      = [.cancelTimer 5, .resolvedPending "r1" (some (.vInt 3))] := by
  refine ⟨rfl, ?_⟩
  have h := (response_resolution_correct
    (BridgeSt.mk "a" DEFAULT_MESSAGE_TYPE [] [] [("r1", 5)] [5] false false
      true 0 0 1 0)
    (RawMessage.mk DEFAULT_MESSAGE_TYPE "b" "x" 0 none (some (.vInt 3))
      false (some "r1") true none)).2.1 5 rfl
  simpa using h.2.2.1

/-- C6: the dispatcher silently ignores non-objects and envelopes whose
`type` differs from the configured message-type, then silently ignores
envelopes whose `communicationId` is not allow-listed — where the empty
allow-list accepts every identifier and a non-empty one accepts exactly
its members; an envelope passing both gates is processed by the action
check and the requestId check independently, so one carrying both fields
is handled as both a request and a response. -/
theorem dispatcher_gates (s : BridgeSt) (m : RawMessage) (x : String)
    (ids : List String) :
    handleMessage s .nonObject = (s, [], []) ∧
    (¬ m.type = s.messageType → handleMessage s (.obj m) = (s, [], [])) ∧
    (m.type = s.messageType →
      isAllowedId s.allowedIds m.communicationId = false →
      handleMessage s (.obj m) = (s, [], [])) ∧
    isAllowedId [] x = true ∧
    (x ∈ ids → isAllowedId ids x = true) ∧
    (ids ≠ [] → x ∉ ids → isAllowedId ids x = false) ∧
    (m.type = s.messageType →
      isAllowedId s.allowedIds m.communicationId = true →
      truthy m.action = true → truthy m.requestId = true →
      handleMessage s (.obj m)
        = ((handleResponseMessage (handleRequestMessage s m).1 m).1,
           (handleRequestMessage s m).2.1,
           (handleRequestMessage s m).2.2
             ++ (handleResponseMessage (handleRequestMessage s m).1 m).2)) := by
  refine ⟨rfl, ?_, ?_, rfl, ?_, ?_, ?_⟩
  · intro h
    have : (m.type == s.messageType) = false := by
      rw [beq_eq_false_iff_ne]; exact h
    simp [handleMessage, this]
  · intro ht h
    simp [handleMessage, ht, h]
  · intro h
    simp [isAllowedId, List.elem_iff, h]
  · intro h1 h2
    simp [isAllowedId, List.elem_iff, h2, List.length_eq_zero, h1]
  · intro ht ha hact hreq
    simp [handleMessage, ht, ha, hact, hreq]

/-- C6 witness: a malformed envelope carrying both fields, with a handler
and a pending entry present, fires both the handler and the resolution. -/
theorem dispatcher_gates_witness :
    ((RawMessage.mk DEFAULT_MESSAGE_TYPE "b" "x" 0 (some "echo")
        (some (.vInt 1)) false (some "r1") true none).type
      = (handle
          { communicationId := "a", messageType := DEFAULT_MESSAGE_TYPE,
            allowedIds := [], messageHandlers := [],
            pendingRequests := [("r1", 5)], activeTimers := [5],
            isReady := true, retryTimerActive := false,
            listenerAttached := true, handshakeAttempts := 0, nextId := 0,
            nextTimerId := 6, clock := 0 } "echo"
          (fun _ d => .ok d)).messageType ∧
      "x" ∈ ["x", "y"]) ∧
    handlerCalls
        (handleMessage
          (handle
            { communicationId := "a", messageType := DEFAULT_MESSAGE_TYPE,
              allowedIds := [], messageHandlers := [],
              pendingRequests := [("r1", 5)], activeTimers := [5],
              isReady := true, retryTimerActive := false,
              listenerAttached := true, handshakeAttempts := 0, nextId := 0,
              nextTimerId := 6, clock := 0 } "echo" (fun _ d => .ok d))
          (.obj (RawMessage.mk DEFAULT_MESSAGE_TYPE "b" "x" 0 (some "echo")
            (some (.vInt 1)) false (some "r1") true none))).2.2
      = [("echo", some (.vInt 1))] ∧
    resolutions
        (handleMessage
          (handle
            { communicationId := "a", messageType := DEFAULT_MESSAGE_TYPE,
              allowedIds := [], messageHandlers := [],
              pendingRequests := [("r1", 5)], activeTimers := [5],
              isReady := true, retryTimerActive := false,
              listenerAttached := true, handshakeAttempts := 0, nextId := 0,
              nextTimerId := 6, clock := 0 } "echo" (fun _ d => .ok d))
          (.obj (RawMessage.mk DEFAULT_MESSAGE_TYPE "b" "x" 0 (some "echo")
            (some (.vInt 1)) false (some "r1") true none))).2.2
      = [("r1", some (.vInt 1))] := by
  refine ⟨⟨rfl, by decide⟩, ?_, ?_⟩
  · have h := (dispatcher_gates
      (handle
        { communicationId := "a", messageType := DEFAULT_MESSAGE_TYPE,
          allowedIds := [], messageHandlers := [],
          pendingRequests := [("r1", 5)], activeTimers := [5],
          isReady := true, retryTimerActive := false,
          listenerAttached := true, handshakeAttempts := 0, nextId := 0,
          nextTimerId := 6, clock := 0 } "echo" (fun _ d => .ok d))
      (RawMessage.mk DEFAULT_MESSAGE_TYPE "b" "x" 0 (some "echo")
        (some (.vInt 1)) false (some "r1") true none)
      "x" ["x", "y"]).2.2.2.2.2.2 rfl rfl rfl rfl
    rw [h]
    rfl
  · rfl

/-- C7: `destroy` stops the handshake retry timer, clears every handler,
cancels every pending request's timer and rejects every pending call with
the disconnect error, empties the correlation table and detaches the
transport listener; a second `destroy` emits nothing and leaves the same
torn-down state. -/
theorem destroy_teardown (s : BridgeSt) :
    (destroy s).1.retryTimerActive = false ∧
    (destroy s).1.messageHandlers = [] ∧
    (destroy s).1.pendingRequests = [] ∧
    (destroy s).1.listenerAttached = false ∧
    rejections (destroy s).2
      = s.pendingRequests.map (fun p => (p.1, "连接已断开")) ∧
    (∀ p ∈ s.pendingRequests, BEvent.cancelTimer p.2 ∈ (destroy s).2) ∧
    destroy (destroy s).1 = ((destroy s).1, []) := by
  refine ⟨rfl, rfl, rfl, rfl, ?_, ?_, ?_⟩
  · show rejections
        ((s.pendingRequests.map
          (fun p => [BEvent.cancelTimer p.2,
            BEvent.rejectedPending p.1 "连接已断开"])).flatten)
      = s.pendingRequests.map (fun p => (p.1, "连接已断开"))
    induction s.pendingRequests with
    | nil => rfl
    | cons p rest ih => simpa [rejections, List.filterMap] using ih
  · intro p hp
    show BEvent.cancelTimer p.2 ∈
      (s.pendingRequests.map
        (fun q => [BEvent.cancelTimer q.2,
          BEvent.rejectedPending q.1 "连接已断开"])).flatten
    rw [List.mem_flatten]
    exact ⟨[BEvent.cancelTimer p.2, BEvent.rejectedPending p.1 "连接已断开"],
      List.mem_map_of_mem _ hp, List.mem_cons_self _ _⟩
  · simp [destroy, clearPendingRequests]

/-- C7 witness. -/
theorem destroy_teardown_witness :
    rejections
        (destroy
          { communicationId := "a", messageType := DEFAULT_MESSAGE_TYPE,
            allowedIds := [], messageHandlers := [],
            pendingRequests := [("r1", 5), ("r2", 6)], activeTimers := [5, 6],
            isReady := true, retryTimerActive := true,
            listenerAttached := true, handshakeAttempts := 0, nextId := 0,
            nextTimerId := 7, clock := 0 }).2
      = [("r1", "连接已断开"), ("r2", "连接已断开")] ∧
    ((("r1", 5) ∈
        ({ communicationId := "a", messageType := DEFAULT_MESSAGE_TYPE,
           allowedIds := [], messageHandlers := [],
           pendingRequests := [("r1", 5), ("r2", 6)], activeTimers := [5, 6],
           isReady := true, retryTimerActive := true,
           listenerAttached := true, handshakeAttempts := 0, nextId := 0,
           nextTimerId := 7, clock := 0 } : BridgeSt).pendingRequests) ∧
      BEvent.cancelTimer 5 ∈
        (destroy
          { communicationId := "a", messageType := DEFAULT_MESSAGE_TYPE,
            allowedIds := [], messageHandlers := [],
            pendingRequests := [("r1", 5), ("r2", 6)], activeTimers := [5, 6],
            isReady := true, retryTimerActive := true,
            listenerAttached := true, handshakeAttempts := 0, nextId := 0,
            nextTimerId := 7, clock := 0 }).2) := by
  refine ⟨?_, by decide, ?_⟩
  · exact (destroy_teardown
      { communicationId := "a", messageType := DEFAULT_MESSAGE_TYPE,
        allowedIds := [], messageHandlers := [],
        pendingRequests := [("r1", 5), ("r2", 6)], activeTimers := [5, 6],
        isReady := true, retryTimerActive := true,
        listenerAttached := true, handshakeAttempts := 0, nextId := 0,
        nextTimerId := 7, clock := 0 }).2.2.2.2.1
  · exact (destroy_teardown
      { communicationId := "a", messageType := DEFAULT_MESSAGE_TYPE,
        allowedIds := [], messageHandlers := [],
        pendingRequests := [("r1", 5), ("r2", 6)], activeTimers := [5, 6],
        isReady := true, retryTimerActive := true,
        listenerAttached := true, handshakeAttempts := 0, nextId := 0,
        nextTimerId := 7, clock := 0 }).2.2.2.2.2.1 ("r1", 5) (by decide)

/-!  ## Helper lemmas about the handshake retry loop -/

theorem handshake_probe_timeout (opts : Options) (outs : List (Except String Unit)) :
    ∀ a t, HsEvent.probe t ∈ (performHandshakeWithRetry opts a outs).1 →
      t = opts.handshakeTimeout := by
  induction outs with
  | nil => intro a t h; simp [performHandshakeWithRetry] at h
  | cons o rest ih =>
    intro a t h
    match o with
    | .ok u =>
      simp [performHandshakeWithRetry] at h
      exact h
    | .error e =>
      by_cases hm : opts.maxHandshakeAttempts ≤ a + 1
      · simp [performHandshakeWithRetry, hm] at h
        exact h
      · simp [performHandshakeWithRetry, hm] at h
        rcases h with h | h
        · exact h
        · exact ih (a + 1) t (by simpa using h)

theorem handshake_sched_interval (opts : Options) (outs : List (Except String Unit)) :
    ∀ a d, HsEvent.scheduleRetry d ∈ (performHandshakeWithRetry opts a outs).1 →
      d = opts.handshakeRetryInterval := by
  induction outs with
  | nil => intro a d h; simp [performHandshakeWithRetry] at h
  | cons o rest ih =>
    intro a d h
    match o with
    | .ok u => simp [performHandshakeWithRetry] at h
    | .error e =>
      by_cases hm : opts.maxHandshakeAttempts ≤ a + 1
      · simp [performHandshakeWithRetry, hm] at h
      · simp [performHandshakeWithRetry, hm] at h
        rcases h with h | h
        · exact h
        · exact ih (a + 1) d (by simpa using h)

theorem getLast?_cons_ne_nil (x : α) (l : List α) (h : l ≠ []) :
    (x :: l).getLast? = l.getLast? := by
  cases l with
  | nil => exact absurd rfl h
  | cons y ys => simp [List.getLast?_cons_cons]

theorem handshake_ready_props (opts : Options) (outs : List (Except String Unit)) :
    ∀ a, (performHandshakeWithRetry opts a outs).2.2 = .ready →
      (performHandshakeWithRetry opts a outs).1.getLast? = some .becomeReady ∧
      HsEvent.stopRetry ∈ (performHandshakeWithRetry opts a outs).1 ∧
      (∃ j : Nat, outs[j]? = some (.ok ())) := by
  induction outs with
  | nil => intro a h; simp [performHandshakeWithRetry] at h
  | cons o rest ih =>
    intro a h
    match o with
    | .ok u =>
      cases u
      refine ⟨?_, ?_, 0, by simp⟩ <;> simp [performHandshakeWithRetry]
    | .error e =>
      by_cases hm : opts.maxHandshakeAttempts ≤ a + 1
      · simp [performHandshakeWithRetry, hm] at h
      · have h2 : (performHandshakeWithRetry opts (a + 1) rest).2.2 = .ready := by
          simpa [performHandshakeWithRetry, hm] using h
        obtain ⟨h4, h5, j, hj⟩ := ih (a + 1) h2
        have hne : (performHandshakeWithRetry opts (a + 1) rest).1 ≠ [] := by
          intro hnil
          rw [hnil] at h4
          simp at h4
        refine ⟨?_, ?_, j + 1, by simpa using hj⟩
        · simp only [performHandshakeWithRetry, hm, if_neg, not_false_iff]
          rw [getLast?_cons_ne_nil _ _ (by simp [hne]),
            getLast?_cons_ne_nil _ _ hne]
          exact h4
        · simp [performHandshakeWithRetry, hm]
          exact h5

theorem handshake_failed_props (opts : Options) (outs : List (Except String Unit)) :
    ∀ a w, (performHandshakeWithRetry opts a outs).2.2 = .failed w →
      opts.maxHandshakeAttempts ≤ (performHandshakeWithRetry opts a outs).2.1 ∧
      (∃ (k : Nat) (e : String),
        outs[k]? = some (.error e) ∧ w = wrapHandshakeError e) ∧
      (performHandshakeWithRetry opts a outs).1.getLast? = some (.rejectSeq w) ∧
      HsEvent.stopRetry ∈ (performHandshakeWithRetry opts a outs).1 ∧
      HsEvent.becomeReady ∉ (performHandshakeWithRetry opts a outs).1 := by
  induction outs with
  | nil => intro a w h; simp [performHandshakeWithRetry] at h
  | cons o rest ih =>
    intro a w h
    match o with
    | .ok u => simp [performHandshakeWithRetry] at h
    | .error e =>
      by_cases hm : opts.maxHandshakeAttempts ≤ a + 1
      · have hw : w = wrapHandshakeError e := by
          have := h
          simp [performHandshakeWithRetry, hm] at this
          exact this.symm
        subst hw
        refine ⟨?_, ⟨0, e, by simp, rfl⟩, ?_, ?_, ?_⟩ <;>
          simp [performHandshakeWithRetry, hm]
      · have h2 : (performHandshakeWithRetry opts (a + 1) rest).2.2 = .failed w := by
          simpa [performHandshakeWithRetry, hm] using h
        obtain ⟨h3, ⟨k, e', hk, hw⟩, h4, h5, h6⟩ := ih (a + 1) w h2
        have hne : (performHandshakeWithRetry opts (a + 1) rest).1 ≠ [] := by
          intro hnil
          rw [hnil] at h4
          simp at h4
        refine ⟨?_, ⟨k + 1, e', by simpa using hk, hw⟩, ?_, ?_, ?_⟩
        · simpa [performHandshakeWithRetry, hm] using h3
        · simp only [performHandshakeWithRetry, hm, if_neg, not_false_iff]
          rw [getLast?_cons_ne_nil _ _ (by simp [hne]),
            getLast?_cons_ne_nil _ _ hne]
          exact h4
        · simp [performHandshakeWithRetry, hm]
          exact h5
        · simp [performHandshakeWithRetry, hm]
          exact h6

theorem handshake_counter_sum (opts : Options) (outs : List (Except String Unit)) :
    ∀ a, (performHandshakeWithRetry opts a outs).2.1
      = a + countSched (performHandshakeWithRetry opts a outs).1
          + countReject (performHandshakeWithRetry opts a outs).1 := by
  induction outs with
  | nil => intro a; simp [performHandshakeWithRetry, countSched, countReject]
  | cons o rest ih =>
    intro a
    match o with
    | .ok u =>
      simp [performHandshakeWithRetry, countSched, countReject,
        List.countP_cons, List.countP_nil]
    | .error e =>
      by_cases hm : opts.maxHandshakeAttempts ≤ a + 1
      · simp [performHandshakeWithRetry, hm, countSched, countReject,
          List.countP_cons, List.countP_nil]
      · have := ih (a + 1)
        simp only [performHandshakeWithRetry, hm, if_neg, not_false_iff,
          countSched, countReject, List.countP_cons] at this ⊢
        simp at this ⊢
        omega

theorem handshake_probe_count (opts : Options) (outs : List (Except String Unit)) :
    ∀ a, countProbe (performHandshakeWithRetry opts a outs).1
      = countSched (performHandshakeWithRetry opts a outs).1
        + (if (performHandshakeWithRetry opts a outs).2.2 = .inFlight then 0 else 1) := by
  induction outs with
  | nil => intro a; simp [performHandshakeWithRetry, countProbe, countSched]
  | cons o rest ih =>
    intro a
    match o with
    | .ok u =>
      simp [performHandshakeWithRetry, countProbe, countSched,
        List.countP_cons, List.countP_nil]
    | .error e =>
      by_cases hm : opts.maxHandshakeAttempts ≤ a + 1
      · simp [performHandshakeWithRetry, hm, countProbe, countSched,
          List.countP_cons, List.countP_nil]
      · have := ih (a + 1)
        simp only [performHandshakeWithRetry, hm, if_neg, not_false_iff,
          countProbe, countSched, List.countP_cons] at this ⊢
        simp at this ⊢
        omega

theorem handshake_attempts_mono (opts : Options) (outs : List (Except String Unit)) :
    ∀ a, a ≤ (performHandshakeWithRetry opts a outs).2.1 := by
  intro a
  have := handshake_counter_sum opts outs a
  omega

theorem handshake_exhausted_step (opts : Options) (a : Nat) (e : String)
    (rest : List (Except String Unit)) (hm : opts.maxHandshakeAttempts ≤ a) :
    performHandshakeWithRetry opts a (.error e :: rest)
      = ([.probe opts.handshakeTimeout, .stopRetry,
          .rejectSeq (wrapHandshakeError e)],
         a + 1, .failed (wrapHandshakeError e)) := by
  simp [performHandshakeWithRetry, Nat.le_succ_of_le hm]

/-- C2: a handshake sequence that rejects has exhausted the configured
maximum (the counter reached `maxHandshakeAttempts`), its error wraps the
last underlying attempt error, it never made the bridge ready
(no `becomeReady` in its trace), and from that point no later sequence
reaches `READY` without a genuinely successful handshake attempt — while a
later sequence whose first attempt fails again rejects with an error
wrapping that underlying error. -/
theorem handshake_failure_terminal (opts : Options) (a0 : Nat)
    (outs : List (Except String Unit)) (w : String)
    (hfail : (performHandshakeWithRetry opts a0 outs).2.2 = .failed w) :
    opts.maxHandshakeAttempts ≤ (performHandshakeWithRetry opts a0 outs).2.1 ∧
    (∃ (k : Nat) (e : String),
      outs[k]? = some (.error e) ∧ w = wrapHandshakeError e) ∧
    HsEvent.becomeReady ∉ (performHandshakeWithRetry opts a0 outs).1 ∧
    (∀ outs' : List (Except String Unit),
      (performHandshakeWithRetry opts
          (performHandshakeWithRetry opts a0 outs).2.1 outs').2.2 = .ready →
      ∃ j : Nat, outs'[j]? = some (.ok ())) ∧
    (∀ (e' : String) (rest' : List (Except String Unit)),
      performHandshakeWithRetry opts
          (performHandshakeWithRetry opts a0 outs).2.1 (.error e' :: rest')
        = ([.probe opts.handshakeTimeout, .stopRetry,
            .rejectSeq (wrapHandshakeError e')],
           (performHandshakeWithRetry opts a0 outs).2.1 + 1,
           .failed (wrapHandshakeError e'))) := by
  obtain ⟨h1, h2, _, _, h5⟩ := handshake_failed_props opts outs a0 w hfail
  refine ⟨h1, h2, h5, ?_, ?_⟩
  · intro outs' hr
    exact (handshake_ready_props opts outs' _ hr).2.2
  · intro e' rest'
    exact handshake_exhausted_step opts _ e' rest' h1

/-- C2 witness: ten timeouts exhaust the default configuration; the
sequence rejects with the wrapped timeout error and a subsequent sequence
cannot become ready on a failing attempt. -/
theorem handshake_failure_terminal_witness :
    (performHandshakeWithRetry defaultOptions 0
        (List.replicate 10 (Except.error "握手超时"))).2.2
      = HsStatus.failed (wrapHandshakeError "握手超时") ∧
    (∃ (k : Nat) (e : String),
      (List.replicate 10 (Except.error "握手超时" : Except String Unit))[k]?
          = some (.error e) ∧
      wrapHandshakeError "握手超时" = wrapHandshakeError e) := by
  refine ⟨by decide, ?_⟩
  exact (handshake_failure_terminal defaultOptions 0
    (List.replicate 10 (Except.error "握手超时"))
    (wrapHandshakeError "握手超时") (by decide)).2.1

/-- C3: every probe in a handshake sequence carries the per-attempt
`handshakeTimeout` (by default 500 ms, less than the default 30000 ms
`requestTimeout`) and posts one correlated request under the reserved
handshake action with `needResponse`; every retry is scheduled after
exactly `handshakeRetryInterval`; the attempt counter increments once per
failed attempt (final = initial + retries scheduled + rejections); each
consumed attempt emits exactly one probe; on success the trace ends in
`becomeReady` with the retry timer stopped, and on failure the sequence
rejects with an error wrapping the last underlying error once the counter
reached `maxHandshakeAttempts`. -/
theorem handshake_attempt_protocol (opts : Options) (a0 : Nat)
    (outs : List (Except String Unit)) (s : BridgeSt) :
    (∀ t, HsEvent.probe t ∈ (performHandshakeWithRetry opts a0 outs).1 →
      t = opts.handshakeTimeout) ∧
    (∀ d, HsEvent.scheduleRetry d ∈ (performHandshakeWithRetry opts a0 outs).1 →
      d = opts.handshakeRetryInterval) ∧
    ((performHandshakeWithRetry opts a0 outs).2.2 = .ready →
      (performHandshakeWithRetry opts a0 outs).1.getLast? = some .becomeReady ∧
      HsEvent.stopRetry ∈ (performHandshakeWithRetry opts a0 outs).1) ∧
    (∀ w, (performHandshakeWithRetry opts a0 outs).2.2 = .failed w →
      opts.maxHandshakeAttempts ≤ (performHandshakeWithRetry opts a0 outs).2.1 ∧
      (∃ (k : Nat) (e : String),
        outs[k]? = some (.error e) ∧ w = wrapHandshakeError e)) ∧
    (performHandshakeWithRetry opts a0 outs).2.1
      = a0 + countSched (performHandshakeWithRetry opts a0 outs).1
          + countReject (performHandshakeWithRetry opts a0 outs).1 ∧
    countProbe (performHandshakeWithRetry opts a0 outs).1
      = countSched (performHandshakeWithRetry opts a0 outs).1
        + (if (performHandshakeWithRetry opts a0 outs).2.2 = .inFlight
           then 0 else 1) ∧
    (sendSingleHandshakeRequest s).2.2.action = some HANDSHAKE_ACTION ∧
    (sendSingleHandshakeRequest s).2.2.needResponse = true ∧
    mapGet (sendSingleHandshakeRequest s).2.1
        (sendSingleHandshakeRequest s).1.pendingRequests
      = some s.nextTimerId ∧
    defaultOptions.handshakeTimeout = 500 ∧
    defaultOptions.requestTimeout = 30000 ∧
    defaultOptions.handshakeTimeout < defaultOptions.requestTimeout := by
  refine ⟨handshake_probe_timeout opts outs a0,
    handshake_sched_interval opts outs a0, ?_, ?_,
    handshake_counter_sum opts outs a0,
    handshake_probe_count opts outs a0, rfl, rfl, ?_, rfl, rfl, by decide⟩
  · intro hr
    exact ⟨(handshake_ready_props opts outs a0 hr).1,
      (handshake_ready_props opts outs a0 hr).2.1⟩
  · intro w hf
    exact ⟨(handshake_failed_props opts outs a0 w hf).1,
      (handshake_failed_props opts outs a0 w hf).2.1⟩
  · simp [sendSingleHandshakeRequest, generateId, mapGet_mapSet_self]

/-- C3 witness: two timeouts then a success under the default options. -/
theorem handshake_attempt_protocol_witness :
    (performHandshakeWithRetry defaultOptions 0
        [.error "握手超时", .error "握手超时", .ok ()]).1
      = [.probe 500, .scheduleRetry 1000, .probe 500, .scheduleRetry 1000,
         .probe 500, .stopRetry, .becomeReady] ∧
    (∀ t, HsEvent.probe t ∈ (performHandshakeWithRetry defaultOptions 0
        [.error "握手超时", .error "握手超时", .ok ()]).1 → t = 500) := by
  refine ⟨by decide, ?_⟩
  exact (handshake_attempt_protocol defaultOptions 0
    [.error "握手超时", .error "握手超时", .ok ()]
    (initBridge "a" [] DEFAULT_MESSAGE_TYPE)).1

/-- C10: the attempt counter is never reset: the loop only increases it
(final ≥ initial), a sequence whose first attempt succeeds leaves it
untouched, and once it has reached `maxHandshakeAttempts`, any later
sequence whose first attempt fails performs exactly one probe and rejects
at once — every later sequence makes at most one probe before deciding. -/
theorem handshake_counter_never_reset (opts : Options) (a0 : Nat)
    (outs : List (Except String Unit)) (e : String)
    (rest : List (Except String Unit))
    (hm : opts.maxHandshakeAttempts ≤ a0) :
    a0 ≤ (performHandshakeWithRetry opts a0 outs).2.1 ∧
    (∀ rest' : List (Except String Unit),
      (performHandshakeWithRetry opts a0 (.ok () :: rest')).2.1 = a0) ∧
    performHandshakeWithRetry opts a0 (.error e :: rest)
      = ([.probe opts.handshakeTimeout, .stopRetry,
          .rejectSeq (wrapHandshakeError e)],
         a0 + 1, .failed (wrapHandshakeError e)) ∧
    countProbe (performHandshakeWithRetry opts a0 outs).1 ≤ 1 := by
  refine ⟨handshake_attempts_mono opts outs a0, ?_,
    handshake_exhausted_step opts a0 e rest hm, ?_⟩
  · intro rest'
    simp [performHandshakeWithRetry]
  · match outs with
    | [] => simp [performHandshakeWithRetry, countProbe]
    | .ok u :: rest' =>
      simp [performHandshakeWithRetry, countProbe, List.countP_cons,
        List.countP_nil]
    | .error e' :: rest' =>
      rw [handshake_exhausted_step opts a0 e' rest' hm]
      simp [countProbe, List.countP_cons, List.countP_nil]

/-- C10 witness: with the counter at the default maximum of 10, a single
failing probe rejects immediately. -/
theorem handshake_counter_never_reset_witness :
    defaultOptions.maxHandshakeAttempts ≤ 10 ∧
    performHandshakeWithRetry defaultOptions 10 [.error "握手超时"]
      = ([.probe 500, .stopRetry, .rejectSeq (wrapHandshakeError "握手超时")],
         11, .failed (wrapHandshakeError "握手超时")) := by
  refine ⟨by decide, ?_⟩
  exact (handshake_counter_never_reset defaultOptions 10 [.error "握手超时"]
    "握手超时" [] (by decide)).2.2.1

theorem handshake_probe_le (opts : Options) (outs : List (Except String Unit)) :
    ∀ a, countProbe (performHandshakeWithRetry opts a outs).1 ≤ outs.length := by
  induction outs with
  | nil => intro a; simp [performHandshakeWithRetry, countProbe]
  | cons o rest ih =>
    intro a
    match o with
    | .ok u =>
      simp [performHandshakeWithRetry, countProbe, List.countP_cons,
        List.countP_nil]
    | .error e =>
      by_cases hm : opts.maxHandshakeAttempts ≤ a + 1
      · simp [performHandshakeWithRetry, hm, countProbe, List.countP_cons,
          List.countP_nil]
      · have := ih (a + 1)
        simp only [performHandshakeWithRetry, hm, if_neg, not_false_iff,
          countProbe, List.countP_cons, List.length_cons] at this ⊢
        simp at this ⊢
        omega

theorem readyRun_replicate_call_inFlight (n : Nat) :
    ∀ s : ReadySt, s.isReady = false → s.inFlight = true →
      readyRun s (List.replicate n .call)
        = { s with waiters := s.waiters + n } := by
  induction n with
  | zero =>
    intro s h1 h2
    simp [readyRun]
  | succ n ih =>
    intro s h1 h2
    rw [List.replicate_succ]
    show readyRun (readyStep s .call) (List.replicate n .call) = _
    have hstep : readyStep s .call = { s with waiters := s.waiters + 1 } := by
      simp [readyStep, h1, h2]
    rw [hstep, ih { s with waiters := s.waiters + 1 } h1 h2]
    simp [Nat.add_assoc, Nat.add_comm 1 n]

/-- C8: while a handshake sequence is in flight, a further call requiring
readiness only joins it as one more waiter — it starts no new sequence and
leaves the in-flight one running; hence `n` back-to-back `invoke` calls on
a fresh bridge start `min n 1` sequences; and the number of handshake
requests a sequence posts is bounded by its attempts, independent of how
many callers are waiting (the loop takes no caller count at all). -/
theorem shared_handshake_single_flight (s : ReadySt) (n : Nat) :
    (s.inFlight = true →
      (readyStep s .call).started = s.started ∧
      (readyStep s .call).inFlight = true) ∧
    (readyRun readyInit (List.replicate n .call)).started = min n 1 ∧
    (∀ (opts : Options) (a : Nat) (outs : List (Except String Unit)),
      countProbe (performHandshakeWithRetry opts a outs).1 ≤ outs.length) := by
  refine ⟨?_, ?_, fun opts a outs => handshake_probe_le opts outs a⟩
  · intro h
    by_cases hr : s.isReady <;> simp [readyStep, h, hr]
  · match n with
    | 0 => rfl
    | Nat.succ k =>
      rw [List.replicate_succ]
      show (readyRun (readyStep readyInit .call) (List.replicate k .call)).started
        = min (k + 1) 1
      have hstep : readyStep readyInit .call
          = { isReady := false, inFlight := true, started := 1, waiters := 1 } := by
        simp [readyStep, readyInit]
      rw [hstep, readyRun_replicate_call_inFlight k _ rfl rfl]
      simp

/-- C8 witness: three calls before readiness start exactly one sequence. -/
theorem shared_handshake_single_flight_witness :
    (⟨false, true, 1, 1⟩ : ReadySt).inFlight = true ∧
    (readyStep (⟨false, true, 1, 1⟩ : ReadySt) .call).started = 1 ∧
    (readyRun readyInit (List.replicate 3 .call)).started = 1 := by
  refine ⟨rfl, ?_, ?_⟩
  · exact ((shared_handshake_single_flight (⟨false, true, 1, 1⟩ : ReadySt)
      3).1 rfl).1
  · exact (shared_handshake_single_flight readyInit 3).2.1

/-- C9: the dispatcher never filters an envelope because its
`communicationId` equals the bridge's own identifier: a fresh bridge with
an empty allow-list accepts its own id, its own handshake probe passes the
gates and is answered by the pre-registered handshake handler with exactly
one success response correlated to the probe, dispatching that response
back resolves the probe's pending entry, and a successful attempt makes
the handshake sequence ready — a single bridge alone on the channel
reaches the ready state. -/
theorem self_handshake_reaches_ready (cid mtype : String) :
    isAllowedId (initBridge cid [] mtype).allowedIds
        (initBridge cid [] mtype).communicationId = true ∧
    (sendSingleHandshakeRequest (initBridge cid [] mtype)).2.2.communicationId
      = (initBridge cid [] mtype).communicationId ∧
    ((handleMessage (sendSingleHandshakeRequest (initBridge cid [] mtype)).1
        (.obj (sendSingleHandshakeRequest (initBridge cid [] mtype)).2.2)).2.1.map
        (fun r => (r.success, r.requestId)))
      = [(true, some (sendSingleHandshakeRequest (initBridge cid [] mtype)).2.1)] ∧
    (resolutions
        (dispatchAll
          (handleMessage (sendSingleHandshakeRequest (initBridge cid [] mtype)).1
            (.obj (sendSingleHandshakeRequest (initBridge cid [] mtype)).2.2)).1
          ((handleMessage (sendSingleHandshakeRequest (initBridge cid [] mtype)).1
            (.obj (sendSingleHandshakeRequest (initBridge cid [] mtype)).2.2)).2.1.map
            .obj)).2).map Prod.fst
      = [(sendSingleHandshakeRequest (initBridge cid [] mtype)).2.1] ∧
    (∀ opts : Options, (performHandshakeWithRetry opts 0 [.ok ()]).2.2
      = .ready) := by
  have hhs : (HANDSHAKE_ACTION == "") = false := by decide
  have hgen : (("gen-" ++ Nat.repr 0) == "") = false := by decide
  refine ⟨rfl, rfl, ?_, ?_, fun opts => rfl⟩ <;>
    simp [initBridge, setupHandshakeHandler, handle, handshakeResponder,
      sendSingleHandshakeRequest, generateId, handleMessage, handleRequestMessage,
      handleResponseMessage, sendResponse, dispatchAll, truthy, mapSet, mapGet,
      isAllowedId, hhs, hgen, resolutions, rejections, List.filterMap]

/-- C9 needs no separate witness (no hypotheses), but we record the
concrete instance: a lone bridge `"solo"` resolves its own probe. -/
theorem self_handshake_reaches_ready_witness :
    (resolutions
        (dispatchAll
          (handleMessage
            (sendSingleHandshakeRequest
              (initBridge "solo" [] DEFAULT_MESSAGE_TYPE)).1
            (.obj (sendSingleHandshakeRequest
              (initBridge "solo" [] DEFAULT_MESSAGE_TYPE)).2.2)).1
          ((handleMessage
            (sendSingleHandshakeRequest
              (initBridge "solo" [] DEFAULT_MESSAGE_TYPE)).1
            (.obj (sendSingleHandshakeRequest
              (initBridge "solo" [] DEFAULT_MESSAGE_TYPE)).2.2)).2.1.map
            .obj)).2).map Prod.fst
      = ["gen-0"] := by
  exact (self_handshake_reaches_ready "solo" DEFAULT_MESSAGE_TYPE).2.2.2.1

end WebBridge
